import Mathlib

/-!
Verification development for the coherence-js-client query-expression and
streaming-collection core.  The TypeScript sources are shallowly embedded:
each filter or aggregator constructor becomes a Lean function producing the
ordered field list of the constructed JavaScript object (the object is what
gets serialized, so the field list is its serialized form), and each gRPC
callback becomes a pure function from the callback arguments to the promise
outcome.  The external serializer (codec) is a parameter, as the spec treats
it as an external collaborator.
-/

namespace Coherence

/-- Model of JavaScript values as they appear in serialized expression nodes,
decoded cache results and callback payloads: JSON values plus the
distinguished undefined value. -/
inductive Json where
  | null : Json
  | undef : Json
  | bool : Bool → Json
  | num : Int → Json
  | str : String → Json
  | arr : List Json → Json
  | obj : List (String × Json) → Json

/-- JavaScript truthiness of a modelled value: null, undefined, false, 0 and
the empty string are falsy; every other value is truthy. -/
def truthy : Json → Bool
  | Json.null => false
  | Json.undef => false
  | Json.bool b => b
  | Json.num n => n != 0
  | Json.str s => s != ""
  | Json.arr _ => true
  | Json.obj _ => true

/-- A JavaScript object as an ordered association list of fields, in property
insertion order (the order JSON serialization emits them). -/
abbrev JObj := List (String × Json)

/-- Assignment to a property of a JavaScript object: an existing key is
updated in place (keeping its position, as JavaScript does), a new key is
appended. -/
def setField : JObj → String → Json → JObj
  | [], k, v => [(k, v)]
  | (k0, v0) :: rest, k, v =>
    if k0 = k then (k, v) :: rest else (k0, v0) :: setField rest k v

/-- Property lookup on a JavaScript object. -/
def getField : JObj → String → Option Json
  | [], _ => none
  | (k0, v0) :: rest, k => if k0 = k then some v0 else getField rest k

/-- The type tag of a serialized expression node: the string stored under the
reserved at-class field, or the empty string when absent. -/
def classTag (o : JObj) : String :=
  match getField o "@class" with
  | some (Json.str s) => s
  | _ => ""

/-- A constructed expression object together with the ordered trace of values
assigned to its reserved at-class field during construction (each base-class
or subclass assignment appends one entry). -/
structure Built where
  obj : JObj
  classTrace : List String

/-- Modelled from the spec: internal.filterName lives in the package-internal
module, which is not among the provided sources; per the spec the type tag is
the package-qualified filter name, so it prefixes the filter package
qualifier onto the simple class name. -/
def filterName (s : String) : String := "filter." ++ s

/-- Modelled from the spec: internal.aggregatorName is in the missing
package-internal module; it prefixes the aggregator package qualifier. -/
def aggregatorName (s : String) : String := "aggregator." ++ s

/-- Modelled from the spec: the Filter base class (filter.ts is not among the
provided sources) stores the supplied type tag in the reserved at-class
field, as every provided subclass and the test suite observe. -/
def mkFilterB (tag : String) : Built :=
  { obj := [("@class", Json.str tag)], classTrace := [tag] }

/-- Modelled from the spec: ComparisonFilter (not among the provided sources)
is a leaf filter holding the extractor and the comparison value in addition
to the tag, as the spec data model states and every provided comparison
subclass passes them. The extractor is represented by its serialized form. -/
def mkComparisonFilterB (tag : String) (extractor : Json) (value : Json) : Built :=
  let base := mkFilterB tag
  { obj := base.obj ++ [("extractor", extractor), ("value", value)],
    classTrace := base.classTrace }

/-- LessFilter from the source: a ComparisonFilter tagged with the qualified
LessFilter name. -/
def mkLessFilterB (extractor : Json) (value : Json) : Built :=
  mkComparisonFilterB (filterName "LessFilter") extractor value

/-- Modelled from the spec: GreaterFilter follows the same comparison-leaf
shape as the in-source LessFilter, with its own qualified tag. -/
def mkGreaterFilterB (extractor : Json) (value : Json) : Built :=
  mkComparisonFilterB (filterName "GreaterFilter") extractor value

/-- Modelled from the spec: GreaterEqualsFilter, same comparison-leaf shape. -/
def mkGreaterEqualsFilterB (extractor : Json) (value : Json) : Built :=
  mkComparisonFilterB (filterName "GreaterEqualsFilter") extractor value

/-- Modelled from the spec: LessEqualsFilter, same comparison-leaf shape. -/
def mkLessEqualsFilterB (extractor : Json) (value : Json) : Built :=
  mkComparisonFilterB (filterName "LessEqualsFilter") extractor value

/-- Modelled from the spec: AndFilter (not among the provided sources) is a
composite filter holding its ordered pair of children under a filters field,
tagged with the qualified AndFilter name; per the spec construction never
fails except on missing required arguments, and the in-source composite
constructions perform no validation of children. -/
def mkAndFilterB (left : JObj) (right : JObj) : Built :=
  let base := mkFilterB (filterName "AndFilter")
  { obj := base.obj ++ [("filters", Json.arr [Json.obj left, Json.obj right])],
    classTrace := base.classTrace }

/-- Modelled from the spec: OrFilter, the disjunctive composite, same shape
as AndFilter with its own qualified tag. -/
def mkOrFilterB (left : JObj) (right : JObj) : Built :=
  let base := mkFilterB (filterName "OrFilter")
  { obj := base.obj ++ [("filters", Json.arr [Json.obj left, Json.obj right])],
    classTrace := base.classTrace }

/-- Modelled from the spec: NotFilter, the negation composite, holding its
single child under a filter field. -/
def mkNotFilterB (inner : JObj) : Built :=
  let base := mkFilterB (filterName "NotFilter")
  { obj := base.obj ++ [("filter", Json.obj inner)], classTrace := base.classTrace }

/-- BetweenFilter constructor from the source: builds the AndFilter parent
with a greater-or-greater-equals lower child and a less-or-less-equals upper
child according to the inclusive-bound flags (both default false), then
overwrites the at-class field with the qualified BetweenFilter tag and
assigns the from and to fields. -/
def mkBetweenFilterB (extractor : Json) (lo : Json) (hi : Json)
    (includeLowerBound : Bool := false) (includeUpperBound : Bool := false) : Built :=
  let lower := if includeLowerBound
    then mkGreaterEqualsFilterB extractor lo
    else mkGreaterFilterB extractor lo
  let upper := if includeUpperBound
    then mkLessEqualsFilterB extractor hi
    else mkLessFilterB extractor hi
  let base := mkAndFilterB lower.obj upper.obj
  { obj := setField base.obj "@class" (Json.str (filterName "BetweenFilter"))
      ++ [("from", lo), ("to", hi)],
    classTrace := base.classTrace ++ [filterName "BetweenFilter"] }

/-- KeyAssociatedFilter constructor from the source: stores the wrapped
filter and the host key; note the tag is passed as the bare class name, with
no package qualifier, unlike the other filters. No validation is performed
on the wrapped filter. -/
def mkKeyAssociatedFilterB (inner : JObj) (hostKey : Json) : Built :=
  let base := mkFilterB "KeyAssociatedFilter"
  { obj := base.obj ++ [("filter", Json.obj inner), ("hostKey", hostKey)],
    classTrace := base.classTrace }

/-- LikeFilter constructor from the source: a ComparisonFilter on the pattern
with the qualified LikeFilter tag; the escape field is assigned only when the
supplied escape string is truthy and non-empty, and ignoreCase is assigned
the supplied flag (defaulting to false, with a falsy-coalescing guard). -/
def mkLikeFilterB (extractor : Json) (pattern : String)
    (escape : String := "") (ignoreCase : Bool := false) : Built :=
  let base := mkComparisonFilterB (filterName "LikeFilter") extractor (Json.str pattern)
  let withEscape := if escape.length > 0
    then base.obj ++ [("escape", Json.str escape)]
    else base.obj
  { obj := withEscape ++ [("ignoreCase", Json.bool (ignoreCase || false))],
    classTrace := base.classTrace }

/-- Modelled from the spec: AbstractDoubleAggregator and its AbstractAggregator
parent are not among the provided sources; per the spec an aggregator holds a
wire tag naming its fold operation plus the extractor (or the property-path
shorthand resolved to one), so the base stores the tag and the extractor
representation. -/
def mkAbstractAggregatorB (tag : String) (extractor : Json) : Built :=
  { obj := [("@class", Json.str tag), ("extractor", extractor)], classTrace := [tag] }

/-- MinAggregator constructor from the source: passes the qualified
ComparableMin tag and the extractor through to the aggregator base. -/
def mkMinAggregatorB (extractor : Json) : Built :=
  mkAbstractAggregatorB (aggregatorName "ComparableMin") extractor

/-- Whether a constructed filter object is a key-association filter, judged
by its type tag as the source constructs it. -/
def isKeyAssociated (o : JObj) : Bool := classTag o = "KeyAssociatedFilter"

/-- Modelled from the spec: the AndFilter constructor is not among the
provided sources; per the spec, illegal nesting of a key-association filter
is a construction error detected synchronously at build time, enforced at
the composite-filter constructor, which rejects a key-association child in
either position as an invalid-argument error and otherwise constructs the
composite. -/
def mkAndFilterE (left : JObj) (right : JObj) : Except String JObj :=
  if isKeyAssociated left || isKeyAssociated right then
    Except.error "a key-association filter cannot be a child of a composite filter"
  else
    Except.ok (mkAndFilterB left right).obj

/-- Modelled from the spec: the OrFilter constructor is not among the
provided sources; like every composite-filter constructor it rejects a
key-association child in either position and otherwise constructs. -/
def mkOrFilterE (left : JObj) (right : JObj) : Except String JObj :=
  if isKeyAssociated left || isKeyAssociated right then
    Except.error "a key-association filter cannot be a child of a composite filter"
  else
    Except.ok (mkOrFilterB left right).obj

/-- Modelled from the spec: the NotFilter constructor is not among the
provided sources; like every composite-filter constructor it rejects a
key-association child and otherwise constructs. -/
def mkNotFilterE (inner : JObj) : Except String JObj :=
  if isKeyAssociated inner then
    Except.error "a key-association filter cannot be a child of a composite filter"
  else
    Except.ok (mkNotFilterB inner).obj

/-- Construction of a KeyAssociatedFilter as fallible code: the source
constructor body (which is the outermost wrapper, not a composite) only
assigns fields and never throws. -/
def mkKeyAssociatedFilterE (inner : JObj) (hostKey : Json) : Except String JObj :=
  Except.ok (mkKeyAssociatedFilterB inner hostKey).obj

/-- Construction of a BetweenFilter as fallible code, from the source: the
constructor builds the two comparison children according to the
inclusive-bound flags and passes them to the AndFilter parent constructor
(modelled above with its key-association child check), then overwrites the
type tag and appends the from and to fields. -/
def mkBetweenFilterE (extractor : Json) (lo : Json) (hi : Json)
    (includeLowerBound : Bool := false) (includeUpperBound : Bool := false) :
    Except String JObj :=
  let lower := if includeLowerBound
    then mkGreaterEqualsFilterB extractor lo
    else mkGreaterFilterB extractor lo
  let upper := if includeUpperBound
    then mkLessEqualsFilterB extractor hi
    else mkLessFilterB extractor hi
  (mkAndFilterE lower.obj upper.obj).map fun base =>
    setField base "@class" (Json.str (filterName "BetweenFilter"))
      ++ [("from", lo), ("to", hi)]

/-- A gRPC service error as delivered to a unary callback. -/
structure GrpcError where
  code : Nat
  message : String
deriving DecidableEq

/-- The settled state of a returned promise: resolved with a value or
rejected with a transport error. -/
inductive Outcome (α : Type) where
  | resolved : α → Outcome α
  | rejected : GrpcError → Outcome α
deriving DecidableEq

/-- Whether an outcome is a resolution. -/
def Outcome.isResolved {α : Type} : Outcome α → Bool
  | Outcome.resolved _ => true
  | Outcome.rejected _ => false

/-- NamedCacheClient.resolveValue from the source: rejects with the error
when one is present, otherwise resolves with the result of the supplied
thunk (or with undefined when no thunk is given).  The thunk may throw (the
codec can fail), so it is an Except value evaluated only on the success
path, and a thrown exception escapes as an Except error. -/
def resolveValue (err : Option GrpcError) (fn : Option (Except String Json)) :
    Except String (Outcome Json) :=
  match err with
  | some e => Except.ok (Outcome.rejected e)
  | none =>
    match fn with
    | some (Except.ok v) => Except.ok (Outcome.resolved v)
    | some (Except.error m) => Except.error m
    | none => Except.ok (Outcome.resolved Json.undef)

/-- The unary get response: the presence flag and the value payload bytes. -/
structure GetResponse where
  present : Bool
  value : Option (List Nat)

/-- A unary response carrying only a value payload (put, putIfAbsent,
remove, replace). -/
structure ValueResponse where
  value : Option (List Nat)

/-- NamedCacheClient.toValue from the source: deserializes the payload only
when it is present and non-empty, otherwise yields null.  The codec is the
external serializer collaborator and may fail. -/
def toValue (codec : List Nat → Except String Json) :
    Option (List Nat) → Except String Json
  | some bs => if bs.length > 0 then codec bs else Except.ok Json.null
  | none => Except.ok Json.null

/-- The getOrDefault callback from the source: when the response is present
and reports the mapping present, it hands the error and the decoded value to
resolveValue; in every other case — including the case of a transport error,
where the response argument is absent — it resolves with the default
value. -/
def getOrDefaultOutcome (codec : List Nat → Except String Json)
    (err : Option GrpcError) (resp : Option GetResponse) (defaultValue : Json) :
    Except String (Outcome Json) :=
  match resp with
  | some r =>
    if r.present then
      resolveValue err (some (toValue codec r.value))
    else
      Except.ok (Outcome.resolved defaultValue)
  | none => Except.ok (Outcome.resolved defaultValue)

/-- The get operation from the source: delegates to getOrDefault with null
as the default value. -/
def getOutcome (codec : List Nat → Except String Json)
    (err : Option GrpcError) (resp : Option GetResponse) :
    Except String (Outcome Json) :=
  getOrDefaultOutcome codec err resp Json.null

/-- The put callback from the source: hands the error and a thunk decoding
the prior-value payload (or yielding the absent response itself) to
resolveValue. -/
def putOutcome (codec : List Nat → Except String Json)
    (err : Option GrpcError) (resp : Option ValueResponse) :
    Except String (Outcome Json) :=
  resolveValue err (some (match resp with
    | some r => toValue codec r.value
    | none => Except.ok Json.undef))

/-- The putIfAbsent callback from the source: identical in shape to put. -/
def putIfAbsentOutcome (codec : List Nat → Except String Json)
    (err : Option GrpcError) (resp : Option ValueResponse) :
    Except String (Outcome Json) :=
  resolveValue err (some (match resp with
    | some r => toValue codec r.value
    | none => Except.ok Json.undef))

/-- The remove callback from the source: identical in shape to put. -/
def removeOutcome (codec : List Nat → Except String Json)
    (err : Option GrpcError) (resp : Option ValueResponse) :
    Except String (Outcome Json) :=
  resolveValue err (some (match resp with
    | some r => toValue codec r.value
    | none => Except.ok Json.undef))

/-- The replace callback from the source: identical in shape to put. -/
def replaceOutcome (codec : List Nat → Except String Json)
    (err : Option GrpcError) (resp : Option ValueResponse) :
    Except String (Outcome Json) :=
  resolveValue err (some (match resp with
    | some r => toValue codec r.value
    | none => Except.ok Json.undef))

/-- The data-event handler of the filtered keySet stream from the source,
folded over the delivered chunks in arrival order: each chunk is
deserialized by the external codec, and the decoded key is added to the
result only when it is truthy; a codec exception aborts the remaining
processing. -/
def keySetElems (codec : List Nat → Except String Json) :
    List (List Nat) → Except String (List Json)
  | [] => Except.ok []
  | c :: rest =>
    (codec c).bind fun k =>
      (keySetElems codec rest).map fun tail =>
        if truthy k then k :: tail else tail

/-- The data-event handler of the filtered values stream from the source,
folded over the delivered chunks in arrival order: every chunk is
deserialized and added unconditionally; a codec exception aborts the
remaining processing. -/
def valuesElems (codec : List Nat → Except String Json) :
    List (List Nat) → Except String (List Json)
  | [] => Except.ok []
  | c :: rest =>
    (codec c).bind fun v =>
      (valuesElems codec rest).map fun tail => v :: tail

/-- The data-event handler of the filtered entrySet stream from the source:
each delivered entry is wrapped as a NamedCacheEntry holding the raw key and
value bytes (no decoding happens at stream time) and added to the result. -/
def entrySetElems (chunks : List (List Nat × List Nat)) : List (List Nat × List Nat) :=
  chunks

/-- The terminal event of a server stream: normal completion or a stream
error. -/
inductive StreamTerminal where
  | endEv : StreamTerminal
  | errorEv : GrpcError → StreamTerminal

/-- The promise returned by keySet with a filter, from the source: the data
events accumulate the decoded truthy keys; the end event resolves with the
accumulated collection and the error event rejects with the stream error. -/
def keySetFilteredPromise (codec : List Nat → Except String Json)
    (chunks : List (List Nat)) (t : StreamTerminal) :
    Except String (Outcome (List Json)) :=
  (keySetElems codec chunks).bind fun elems =>
    match t with
    | StreamTerminal.endEv => Except.ok (Outcome.resolved elems)
    | StreamTerminal.errorEv e => Except.ok (Outcome.rejected e)

/-- The promise returned by values with a filter, from the source: the data
events accumulate every decoded value; end resolves, error rejects. -/
def valuesFilteredPromise (codec : List Nat → Except String Json)
    (chunks : List (List Nat)) (t : StreamTerminal) :
    Except String (Outcome (List Json)) :=
  (valuesElems codec chunks).bind fun elems =>
    match t with
    | StreamTerminal.endEv => Except.ok (Outcome.resolved elems)
    | StreamTerminal.errorEv e => Except.ok (Outcome.rejected e)

/-- The promise returned by entrySet with a filter, from the source: data
events accumulate raw entries without decoding; end resolves, error
rejects. -/
def entrySetFilteredPromise (chunks : List (List Nat × List Nat))
    (t : StreamTerminal) : Outcome (List (List Nat × List Nat)) :=
  match t with
  | StreamTerminal.endEv => Outcome.resolved (entrySetElems chunks)
  | StreamTerminal.errorEv e => Outcome.rejected e

/-- The outbound wire requests issued by the collection operations: a
one-shot streamed call scoped by a filter for each collection kind, or a
page request carrying only the cache name and the continuation cookie. -/
inductive CacheRequest where
  | keySetStream (cache : String) (filter : Json)
  | entrySetStream (cache : String) (filter : Json)
  | valuesStream (cache : String) (filter : Json)
  | pageReq (cache : String) (cookie : List Nat)

/-- Whether a request is a page (cookie-continuation) request. -/
def CacheRequest.isPageRequest : CacheRequest → Bool
  | CacheRequest.pageReq _ _ => true
  | _ => false

/-- The complete list of outbound requests issued by keySet called with a
filter, from the source: the request factory builds one filter-scoped keySet
request and the client issues exactly that one streamed call; the event
handlers issue no further requests and no page request is ever built. -/
def keySetFilteredRequests (cache : String) (filter : JObj) : List CacheRequest :=
  [CacheRequest.keySetStream cache (Json.obj filter)]

/-- The complete list of outbound requests issued by entrySet called with a
filter, from the source: exactly one streamed call. -/
def entrySetFilteredRequests (cache : String) (filter : JObj) : List CacheRequest :=
  [CacheRequest.entrySetStream cache (Json.obj filter)]

/-- The complete list of outbound requests issued by values called with a
filter, from the source: exactly one streamed call. -/
def valuesFilteredRequests (cache : String) (filter : JObj) : List CacheRequest :=
  [CacheRequest.valuesStream cache (Json.obj filter)]

/-- Modelled from the spec: the streamed-collection module backing the
unfiltered keySet, entrySet and values variants is not among the provided
sources; per the spec its iteration requests one page at a time through the
page-request factory (the source exposes nextKeySetPage and nextEntrySetPage
built on pageRequest with a cookie), continuing while the page completes
with a non-empty cookie and stopping at an empty cookie.  The server is a
function from the request cookie to the delivered page and next cookie, and
fuel bounds the recursion. -/
def pagedRequests (cache : String)
    (server : List Nat → List (List Nat) × List Nat) :
    Nat → List Nat → List CacheRequest
  | 0, _ => []
  | fuel + 1, cookie =>
    let req := CacheRequest.pageReq cache cookie
    let next := (server cookie).2
    if next.isEmpty then [req] else req :: pagedRequests cache server fuel next

/-- A concrete external codec used to evaluate the embedded callbacks and
stream handlers on closed inputs: it decodes a byte chunk to the number of
bytes in it. -/
def constCodec : List Nat → Except String Json :=
  fun bs => Except.ok (Json.num bs.length)

/-- C1, counterexample: between with default bounds does not serialize to
the and-composite of greater and less including the composite type tag — the
BetweenFilter constructor overwrites the inherited AndFilter tag with the
BetweenFilter tag, so the two serialized nodes differ in their type tag. -/
theorem claim1_counterexample :
    classTag (mkBetweenFilterB (Json.str "ex") (Json.num 1) (Json.num 2) false false).obj
      = "filter.BetweenFilter" ∧
    classTag (mkAndFilterB (mkGreaterFilterB (Json.str "ex") (Json.num 1)).obj
        (mkLessFilterB (Json.str "ex") (Json.num 2)).obj).obj
      = "filter.AndFilter" ∧
    classTag (mkBetweenFilterB (Json.str "ex") (Json.num 1) (Json.num 2) false false).obj
      ≠ classTag (mkAndFilterB (mkGreaterFilterB (Json.str "ex") (Json.num 1)).obj
          (mkLessFilterB (Json.str "ex") (Json.num 2)).obj).obj := by
  refine ⟨rfl, rfl, ?_⟩
  decide

/-- C1, amended: constructing between with default (exclusive) bounds yields
a node whose filters children are exactly those of and(greater(e, lo),
less(e, hi)), and with both bounds inclusive exactly those of
and(greaterEquals(e, lo), lessEquals(e, hi)); but the composite type tag is
overwritten to the BetweenFilter tag (not the AndFilter tag) and additional
from and to fields are appended. -/
theorem claim1_between_children (e lo hi : Json) :
    getField (mkBetweenFilterB e lo hi false false).obj "filters"
      = getField (mkAndFilterB (mkGreaterFilterB e lo).obj (mkLessFilterB e hi).obj).obj "filters" ∧
    getField (mkBetweenFilterB e lo hi true true).obj "filters"
      = getField (mkAndFilterB (mkGreaterEqualsFilterB e lo).obj
          (mkLessEqualsFilterB e hi).obj).obj "filters" ∧
    classTag (mkBetweenFilterB e lo hi false false).obj = filterName "BetweenFilter" ∧
    classTag (mkBetweenFilterB e lo hi true true).obj = filterName "BetweenFilter" ∧
    getField (mkBetweenFilterB e lo hi false false).obj "from" = some lo ∧
    getField (mkBetweenFilterB e lo hi false false).obj "to" = some hi :=
  ⟨rfl, rfl, rfl, rfl, rfl, rfl⟩

/-- C9, counterexample: the type tag is not assigned exactly once during
construction — the BetweenFilter constructor assigns it twice, first the
inherited AndFilter tag and then its own tag. -/
theorem claim9_counterexample :
    (mkBetweenFilterB (Json.str "ex") (Json.num 1) (Json.num 2) false false).classTrace
      = [filterName "AndFilter", filterName "BetweenFilter"] ∧
    (mkBetweenFilterB (Json.str "ex") (Json.num 1) (Json.num 2) false false).classTrace.length
      ≠ 1 := by
  refine ⟨rfl, ?_⟩
  decide

/-- C9, amended: every modelled expression node receives its type tag during
construction and the embedding provides no mutation after construction; the
final tag equals the construction-time constant of the concrete variant; but
the BetweenFilter constructor assigns the tag twice (AndFilter then
BetweenFilter), and the KeyAssociatedFilter tag is the bare class name
without the package qualifier the other variants carry. -/
theorem claim9_type_tags (e lo hi inner0 : Json) (b1 b2 : Bool)
    (innerF : JObj) (hk agg : Json) (p esc : String) (ic : Bool) :
    (mkBetweenFilterB e lo hi b1 b2).classTrace
      = [filterName "AndFilter", filterName "BetweenFilter"] ∧
    classTag (mkBetweenFilterB e lo hi b1 b2).obj = filterName "BetweenFilter" ∧
    (mkKeyAssociatedFilterB innerF hk).classTrace = ["KeyAssociatedFilter"] ∧
    classTag (mkKeyAssociatedFilterB innerF hk).obj = "KeyAssociatedFilter" ∧
    (mkMinAggregatorB agg).classTrace = [aggregatorName "ComparableMin"] ∧
    classTag (mkMinAggregatorB agg).obj = aggregatorName "ComparableMin" ∧
    (mkLikeFilterB e p esc ic).classTrace = [filterName "LikeFilter"] ∧
    (mkLessFilterB e lo).classTrace = [filterName "LessFilter"] ∧
    classTag (mkLessFilterB e inner0).obj = filterName "LessFilter" :=
  ⟨rfl, rfl, rfl, rfl, rfl, rfl, rfl, rfl, rfl⟩

/-- C3: passing a key-association filter as a child of a composite-filter
construction is rejected at construction time with an error, in either child
position of and and or and as the child of not; the AndFilter built inside
between only ever receives the freshly built comparison children, never a
key-association filter, so the between construction always succeeds; and a
key-association filter works as the outermost wrapper — wrapping any filter
tree in it succeeds. -/
theorem claim3_composites_reject_key_association (l r : JObj)
    (hk e lo hi : Json) (b1 b2 : Bool) (hl : isKeyAssociated l = true) :
    (mkAndFilterE l r).isOk = false ∧
    (mkAndFilterE r l).isOk = false ∧
    (mkOrFilterE l r).isOk = false ∧
    (mkOrFilterE r l).isOk = false ∧
    (mkNotFilterE l).isOk = false ∧
    mkBetweenFilterE e lo hi b1 b2 = Except.ok (mkBetweenFilterB e lo hi b1 b2).obj ∧
    (mkKeyAssociatedFilterE l hk).isOk = true := by
  refine ⟨?_, ?_, ?_, ?_, ?_, ?_, rfl⟩
  · simp [mkAndFilterE, hl, Except.isOk, Except.toBool]
  · simp [mkAndFilterE, hl, Except.isOk, Except.toBool]
  · simp [mkOrFilterE, hl, Except.isOk, Except.toBool]
  · simp [mkOrFilterE, hl, Except.isOk, Except.toBool]
  · simp [mkNotFilterE, hl, Except.isOk, Except.toBool]
  · cases b1 <;> cases b2 <;> rfl

/-- C3 witness: at a concrete key-association filter (wrapping less(age, 40)
for host key 10), the and, or and not constructions all reject it as a
child, the between construction with default bounds succeeds, and wrapping
it again as outermost succeeds. -/
theorem claim3_witness :
    (mkAndFilterE
        (mkKeyAssociatedFilterB (mkLessFilterB (Json.str "age") (Json.num 40)).obj
          (Json.num 10)).obj
        (mkGreaterFilterB (Json.str "age") (Json.num 20)).obj).isOk = false ∧
    (mkAndFilterE (mkGreaterFilterB (Json.str "age") (Json.num 20)).obj
        (mkKeyAssociatedFilterB (mkLessFilterB (Json.str "age") (Json.num 40)).obj
          (Json.num 10)).obj).isOk = false ∧
    (mkOrFilterE
        (mkKeyAssociatedFilterB (mkLessFilterB (Json.str "age") (Json.num 40)).obj
          (Json.num 10)).obj
        (mkGreaterFilterB (Json.str "age") (Json.num 20)).obj).isOk = false ∧
    (mkOrFilterE (mkGreaterFilterB (Json.str "age") (Json.num 20)).obj
        (mkKeyAssociatedFilterB (mkLessFilterB (Json.str "age") (Json.num 40)).obj
          (Json.num 10)).obj).isOk = false ∧
    (mkNotFilterE
        (mkKeyAssociatedFilterB (mkLessFilterB (Json.str "age") (Json.num 40)).obj
          (Json.num 10)).obj).isOk = false ∧
    mkBetweenFilterE (Json.str "age") (Json.num 1) (Json.num 2) false false
      = Except.ok (mkBetweenFilterB (Json.str "age") (Json.num 1) (Json.num 2)
          false false).obj ∧
    (mkKeyAssociatedFilterE
        (mkKeyAssociatedFilterB (mkLessFilterB (Json.str "age") (Json.num 40)).obj
          (Json.num 10)).obj (Json.num 11)).isOk = true :=
  claim3_composites_reject_key_association
    (mkKeyAssociatedFilterB (mkLessFilterB (Json.str "age") (Json.num 40)).obj
      (Json.num 10)).obj
    (mkGreaterFilterB (Json.str "age") (Json.num 20)).obj
    (Json.num 11) (Json.str "age") (Json.num 1) (Json.num 2) false false (by decide)

/-- C6: the escape field of a constructed LikeFilter is present exactly when
a non-empty escape string was supplied, and holds that string (never null);
an absent or empty escape leaves the field absent entirely; the
case-sensitivity flag is stored as supplied and defaults to false
(case-sensitive) when not supplied. -/
theorem claim6_like_escape_and_case (e : Json) (p esc : String) (ic : Bool) :
    getField (mkLikeFilterB e p esc ic).obj "escape"
      = (if esc.length > 0 then some (Json.str esc) else none) ∧
    getField (mkLikeFilterB e p esc ic).obj "ignoreCase" = some (Json.bool ic) ∧
    getField (mkLikeFilterB e p).obj "escape" = none ∧
    getField (mkLikeFilterB e p).obj "ignoreCase" = some (Json.bool false) := by
  refine ⟨?_, ?_, rfl, rfl⟩
  · by_cases h : esc.length > 0 <;>
      simp [mkLikeFilterB, mkComparisonFilterB, mkFilterB, getField, h]
  · by_cases h : esc.length > 0 <;>
      simp [mkLikeFilterB, mkComparisonFilterB, mkFilterB, getField, h]

/-- C2: the claim fails on the code — when the transport reports an error
for the underlying get call (error present, response absent, the standard
gRPC error shape), the getOrDefault callback takes the absent-response
branch and resolves with the default value instead of rejecting, so get
resolves with null; the error is swallowed.  By contrast the put callback,
which routes the error through resolveValue first, correctly rejects with
the same error. -/
theorem claim2_transport_error_swallowed :
    getOrDefaultOutcome constCodec (some ⟨14, "UNAVAILABLE"⟩) none (Json.num 42)
      = Except.ok (Outcome.resolved (Json.num 42)) ∧
    getOutcome constCodec (some ⟨14, "UNAVAILABLE"⟩) none
      = Except.ok (Outcome.resolved Json.null) ∧
    putOutcome constCodec (some ⟨14, "UNAVAILABLE"⟩) none
      = Except.ok (Outcome.rejected ⟨14, "UNAVAILABLE"⟩) :=
  ⟨rfl, rfl, rfl⟩

/-- C7: when the server reports no mapping present for the key, get resolves
to the explicit absent indicator null and getOrDefault resolves to the
supplied default; the absence of a mapping is resolved, never reported as a
failure. -/
theorem claim7_absent_mapping_resolves (codec : List Nat → Except String Json)
    (r : GetResponse) (d : Json) (h : r.present = false) :
    getOrDefaultOutcome codec none (some r) d = Except.ok (Outcome.resolved d) ∧
    getOutcome codec none (some r) = Except.ok (Outcome.resolved Json.null) ∧
    (getOrDefaultOutcome codec none (some r) d).map Outcome.isResolved = Except.ok true := by
  have h1 : ∀ dv : Json, getOrDefaultOutcome codec none (some r) dv
      = Except.ok (Outcome.resolved dv) := by
    intro dv
    simp [getOrDefaultOutcome, h]
  exact ⟨h1 d, h1 Json.null, by rw [h1 d]; rfl⟩

/-- C7 witness: evaluated at a concrete not-present response with default 7,
getOrDefault resolves 7 and get resolves null. -/
theorem claim7_witness :
    getOrDefaultOutcome constCodec none (some ⟨false, none⟩) (Json.num 7)
      = Except.ok (Outcome.resolved (Json.num 7)) ∧
    getOutcome constCodec none (some ⟨false, none⟩)
      = Except.ok (Outcome.resolved Json.null) ∧
    (getOrDefaultOutcome constCodec none (some ⟨false, none⟩) (Json.num 7)).map
      Outcome.isResolved = Except.ok true :=
  claim7_absent_mapping_resolves constCodec ⟨false, none⟩ (Json.num 7) rfl

/-- C10: for the scalar value-returning operations, a response whose value
payload is absent or zero-length resolves to null (not undefined, not a
rejection, and without raising any codec exception), and the codec is
invoked only on a non-empty payload; get with a present mapping and an empty
payload resolves to null as well. -/
theorem claim10_empty_payload_null (codec : List Nat → Except String Json)
    (r : ValueResponse) (bs : List Nat)
    (h : r.value = none ∨ r.value = some []) (hbs : bs.length > 0) :
    putOutcome codec none (some r) = Except.ok (Outcome.resolved Json.null) ∧
    putIfAbsentOutcome codec none (some r) = Except.ok (Outcome.resolved Json.null) ∧
    removeOutcome codec none (some r) = Except.ok (Outcome.resolved Json.null) ∧
    replaceOutcome codec none (some r) = Except.ok (Outcome.resolved Json.null) ∧
    getOutcome codec none (some ⟨true, r.value⟩) = Except.ok (Outcome.resolved Json.null) ∧
    toValue codec (some bs) = codec bs ∧
    toValue codec none = Except.ok Json.null ∧
    toValue codec (some []) = Except.ok Json.null := by
  have hv : toValue codec r.value = Except.ok Json.null := by
    rcases h with h | h <;> simp [toValue, h]
  refine ⟨?_, ?_, ?_, ?_, ?_, ?_, rfl, rfl⟩
  · simp [putOutcome, resolveValue, hv]
  · simp [putIfAbsentOutcome, resolveValue, hv]
  · simp [removeOutcome, resolveValue, hv]
  · simp [replaceOutcome, resolveValue, hv]
  · simp [getOutcome, getOrDefaultOutcome, resolveValue, hv]
  · simp [toValue, hbs]

/-- C10 witness: evaluated at a concrete response with a zero-length payload
and at the concrete non-empty payload of one byte. -/
theorem claim10_witness :
    putOutcome constCodec none (some ⟨some []⟩) = Except.ok (Outcome.resolved Json.null) ∧
    putIfAbsentOutcome constCodec none (some ⟨some []⟩)
      = Except.ok (Outcome.resolved Json.null) ∧
    removeOutcome constCodec none (some ⟨some []⟩)
      = Except.ok (Outcome.resolved Json.null) ∧
    replaceOutcome constCodec none (some ⟨some []⟩)
      = Except.ok (Outcome.resolved Json.null) ∧
    getOutcome constCodec none (some ⟨true, some []⟩)
      = Except.ok (Outcome.resolved Json.null) ∧
    toValue constCodec (some [5]) = constCodec [5] ∧
    toValue constCodec none = Except.ok Json.null ∧
    toValue constCodec (some []) = Except.ok Json.null :=
  claim10_empty_payload_null constCodec ⟨some []⟩ [5] (Or.inr rfl) (by decide)

/-- Helper: the values stream handler is exactly the monadic traversal of
the delivered chunks by the codec. -/
theorem valuesElems_eq_mapM (codec : List Nat → Except String Json) :
    ∀ chunks : List (List Nat), valuesElems codec chunks = chunks.mapM codec := by
  intro chunks
  induction chunks with
  | nil => rfl
  | cons c rest ih =>
    simp only [valuesElems, ih, List.mapM_cons]
    cases hc : codec c with
    | error m => rfl
    | ok v =>
      cases hr : rest.mapM codec with
      | error m2 => rfl
      | ok vs => rfl

/-- Helper: the keySet stream handler is the monadic traversal of the
delivered chunks by the codec followed by the truthiness filter. -/
theorem keySetElems_eq_filter (codec : List Nat → Except String Json) :
    ∀ chunks : List (List Nat),
      keySetElems codec chunks
        = (chunks.mapM codec).map (fun ks => ks.filter truthy) := by
  intro chunks
  induction chunks with
  | nil => rfl
  | cons c rest ih =>
    simp only [keySetElems, ih, List.mapM_cons]
    cases hc : codec c with
    | error m => rfl
    | ok v =>
      cases hr : rest.mapM codec with
      | error m2 => rfl
      | ok vs =>
        by_cases ht : truthy v <;>
          simp [ht, List.filter_cons, Except.map, Except.bind, Bind.bind, Pure.pure,
            Except.pure]

/-- C4, counterexample: an element delivered on the filtered keySet stream
that the codec decodes successfully to a falsy key (here the number zero) is
silently dropped from the returned collection with no error, while the same
delivery on the values stream is kept — so each delivered element being
decoded and included does not hold for keySet. -/
theorem claim4_counterexample :
    constCodec [] = Except.ok (Json.num 0) ∧
    truthy (Json.num 0) = false ∧
    keySetElems constCodec [[]] = Except.ok [] ∧
    valuesElems constCodec [[]] = Except.ok [Json.num 0] :=
  ⟨rfl, rfl, rfl, rfl⟩

/-- C4, amended: the filtered values stream decodes and includes every
delivered element in arrival order and a decode failure aborts the remaining
iteration (it equals the fail-fast monadic traversal by the codec); the
filtered entrySet stream includes every delivered entry with decoding
deferred; the filtered keySet stream decodes every element with the same
fail-fast traversal but silently skips elements whose decoded key is falsy. -/
theorem claim4_stream_decode_inclusion (codec : List Nat → Except String Json)
    (chunks : List (List Nat)) (entries : List (List Nat × List Nat)) :
    valuesElems codec chunks = chunks.mapM codec ∧
    keySetElems codec chunks = (chunks.mapM codec).map (fun ks => ks.filter truthy) ∧
    entrySetElems entries = entries :=
  ⟨valuesElems_eq_mapM codec chunks, keySetElems_eq_filter codec chunks, rfl⟩

/-- Helper: every request issued by the spec-modelled paged iteration is a
page request carrying a cookie. -/
theorem pagedRequests_all_pages (cache : String)
    (server : List Nat → List (List Nat) × List Nat) :
    ∀ (fuel : Nat) (cookie : List Nat),
      (pagedRequests cache server fuel cookie).all CacheRequest.isPageRequest = true := by
  intro fuel
  induction fuel with
  | zero => intro cookie; rfl
  | succ n ih =>
    intro cookie
    simp only [pagedRequests]
    cases h : ((server cookie).2).isEmpty with
    | true => simp [h, CacheRequest.isPageRequest]
    | false => simp [h, CacheRequest.isPageRequest, ih]

/-- C5: keySet, entrySet and values called with a filter issue exactly one
outbound call each, which is a filter-scoped streamed call and not a page
request; the unfiltered variants enumerate through the paged collection,
every one of whose outbound requests is a page request carrying a
continuation cookie. -/
theorem claim5_filter_one_shot_versus_paged (cache : String) (f : JObj)
    (server : List Nat → List (List Nat) × List Nat) (fuel : Nat) (cookie : List Nat) :
    (keySetFilteredRequests cache f).length = 1 ∧
    (entrySetFilteredRequests cache f).length = 1 ∧
    (valuesFilteredRequests cache f).length = 1 ∧
    (keySetFilteredRequests cache f).countP CacheRequest.isPageRequest = 0 ∧
    (entrySetFilteredRequests cache f).countP CacheRequest.isPageRequest = 0 ∧
    (valuesFilteredRequests cache f).countP CacheRequest.isPageRequest = 0 ∧
    (pagedRequests cache server fuel cookie).all CacheRequest.isPageRequest = true :=
  ⟨rfl, rfl, rfl, rfl, rfl, rfl, pagedRequests_all_pages cache server fuel cookie⟩

/-- C8: for every filter-scoped enumeration, a stream error as the terminal
event causes the returned promise to reject with that transport error — the
collection accumulated from the data events is discarded, never resolved. -/
theorem claim8_stream_error_rejects (codec : List Nat → Except String Json)
    (chunks chunksV : List (List Nat)) (entries : List (List Nat × List Nat))
    (elemsK elemsV : List Json) (e : GrpcError)
    (hk : keySetElems codec chunks = Except.ok elemsK)
    (hv : valuesElems codec chunksV = Except.ok elemsV) :
    keySetFilteredPromise codec chunks (StreamTerminal.errorEv e)
      = Except.ok (Outcome.rejected e) ∧
    valuesFilteredPromise codec chunksV (StreamTerminal.errorEv e)
      = Except.ok (Outcome.rejected e) ∧
    entrySetFilteredPromise entries (StreamTerminal.errorEv e) = Outcome.rejected e := by
  refine ⟨?_, ?_, rfl⟩
  · unfold keySetFilteredPromise
    rw [hk]
    rfl
  · unfold valuesFilteredPromise
    rw [hv]
    rfl

/-- C8 witness: evaluated at concrete one-chunk streams terminated by a
concrete stream error, all three filtered enumerations reject with it. -/
theorem claim8_witness :
    keySetFilteredPromise constCodec [[1]] (StreamTerminal.errorEv ⟨14, "UNAVAILABLE"⟩)
      = Except.ok (Outcome.rejected ⟨14, "UNAVAILABLE"⟩) ∧
    valuesFilteredPromise constCodec [[2]] (StreamTerminal.errorEv ⟨14, "UNAVAILABLE"⟩)
      = Except.ok (Outcome.rejected ⟨14, "UNAVAILABLE"⟩) ∧
    entrySetFilteredPromise [([1], [2])] (StreamTerminal.errorEv ⟨14, "UNAVAILABLE"⟩)
      = Outcome.rejected ⟨14, "UNAVAILABLE"⟩ :=
  claim8_stream_error_rejects constCodec [[1]] [[2]] [([1], [2])]
    [Json.num 1] [Json.num 1] ⟨14, "UNAVAILABLE"⟩ rfl rfl

end Coherence
